import Mathlib

/-!
Verification of the s-bahn-prediction repository (Rust sources under
`src/src/response_messages.rs`, `src/src/bin/analysis.rs`).

Shallow embedding conventions:
* `serde_json::Value` is modelled by `Json`, with JSON numbers as `ℚ`
  (the claims under study are structural and do not probe binary
  floating-point rounding).
* Rust `Result` plus the possibility of a panic (`expect`, `unwrap`,
  `todo!`) is modelled by `RRes ε α`, whose `crash` constructor marks a
  panic.
* Strings are modelled as `List Char`, one char per byte (the inputs the
  claims exercise are ASCII).
-/

namespace SBahn

/-- Model of `serde_json::Value`; objects keep their field list. -/
inductive Json where
  | null : Json
  | bool (b : Bool) : Json
  | num (q : ℚ) : Json
  | str (s : String) : Json
  | arr (xs : List Json) : Json
  | obj (fields : List (String × Json)) : Json

/-- Rust computation outcome: success, typed error, or panic
(`expect` / `unwrap` / `todo!` are modelled by `crash`). -/
inductive RRes (ε : Type) (α : Type) where
  | crash : RRes ε α
  | err (e : ε) : RRes ε α
  | ok (a : α) : RRes ε α
  deriving DecidableEq

namespace RRes

/-- The `?` operator: propagate errors and panics. -/
def bind {ε α β : Type} : RRes ε α → (α → RRes ε β) → RRes ε β
  | .crash, _ => .crash
  | .err e, _ => .err e
  | .ok a, f => f a

instance {ε : Type} : Monad (RRes ε) where
  pure := .ok
  bind := RRes.bind

end RRes

/-- The `AnalysisError` enum of `analysis.rs`.  The string payloads of
`IncorrectType` / `IncorrectValueType` carry `type_name_of_val` /
`Debug`-format output in the Rust code; they are modelled as the literal
strings the code produces where the code fixes them statically. -/
inductive AnalysisError where
  | MissingProperty (property_name : String)
  | IncorrectType (expected_type_name actual_type_name : String)
  | IncorrectValueType (expected_type_name actual_value actual_type_name : String)
  | MissingItems (expected_amount actual_amount : Nat)
  deriving DecidableEq

/-- The `Coordinate` struct: `{ latitude, longitude }`. -/
structure Coordinate where
  latitude : ℚ
  longitude : ℚ
  deriving DecidableEq

/-- `Coordinate::try_from(serde_json::Value)`.

The Rust code checks `array.len() != 2` (returning
`MissingItems(3, array.len())` on failure), then `pop`s the array twice:
the first `pop` yields the *last* element and becomes `latitude`, the
second yields the *first* element and becomes `longitude`.  Each popped
value is passed through `.filter(|v| matches!(v, Value::Number(_)))`
followed by `.expect(...)`, so a non-numeric entry panics (`crash`). -/
def Coordinate.tryFrom : Json → RRes AnalysisError Coordinate
  | .arr [lonV, latV] =>
    match latV with
    | .num lat =>
      match lonV with
      | .num lon => .ok ⟨lat, lon⟩
      | _ => .crash
    | _ => .crash
  | .arr xs => .err (.MissingItems 3 xs.length)
  | _ => .err (.IncorrectType "Value::Array" "Any other type")

/-- `serde_json::Map::get`: field lookup in an object. -/
def jlookup : List (String × Json) → String → Option Json
  | [], _ => none
  | (k, v) :: rest, key => if k = key then some v else jlookup rest key

/-- `Value::as_str`. -/
def Json.asStr : Json → Option String
  | .str s => some s
  | _ => none

/-- `Value::as_object`. -/
def Json.asObject : Json → Option (List (String × Json))
  | .obj fields => some fields
  | _ => none

/-- `Value::as_i64`.  In `serde_json` this succeeds exactly when the number is
stored as an integer fitting `i64`; in the `ℚ` model an integer-valued
rational in `i64` range stands for an integer-stored number. -/
def Json.asI64 : Json → Option ℤ
  | .num q => if q.den = 1 ∧ -(2 ^ 63) ≤ q.num ∧ q.num < 2 ^ 63 then some q.num else none
  | _ => none

/-- `type_name_of_val` output for a `serde_json::Value` lvalue. -/
def typeNameValue : String := "serde_json::value::Value"

/-- `type_name_of_val` output for a `&serde_json::Value` lvalue. -/
def typeNameRefValue : String := "&serde_json::value::Value"

/-- `type_name_of_val` output for `geojson::Feature.properties`. -/
def typeNameOptionProperties : String :=
  "core::option::Option<serde_json::map::Map<alloc::string::String, serde_json::value::Value>>"

/-- `type_name_of_val` output for a `geojson::GeoJson` lvalue. -/
def typeNameGeoJson : String := "geojson::GeoJson"

/-- `type_name_of_val` output for a `Content` lvalue. -/
def typeNameContent : String := "scraper::response_messages::Content"

mutual

/-- `Debug`-format rendering of a `serde_json::Value` (used only to fill the
`actual_value` payload of `IncorrectValueType`; no claim inspects it). -/
def jsonDebug : Json → String
  | .null => "Null"
  | .bool b => s!"Bool({b})"
  | .num q => s!"Number({q})"
  | .str s => "String(\"" ++ s ++ "\")"
  | .arr xs => "Array [" ++ jsonDebugList xs ++ "]"
  | .obj fields => "Object \x7b" ++ jsonDebugFields fields ++ "\x7d"

/-- Comma-separated `Debug` rendering of array elements. -/
def jsonDebugList : List Json → String
  | [] => ""
  | [x] => jsonDebug x
  | x :: rest => jsonDebug x ++ ", " ++ jsonDebugList rest

/-- Comma-separated `Debug` rendering of object entries. -/
def jsonDebugFields : List (String × Json) → String
  | [] => ""
  | [(k, v)] => "\"" ++ k ++ "\": " ++ jsonDebug v
  | (k, v) :: rest => "\"" ++ k ++ "\": " ++ jsonDebug v ++ ", " ++ jsonDebugFields rest

end

/-- `impl Extractor<String> for &Map<String, Value>`: required string field. -/
def extractString (props : List (String × Json)) (field_name : String) :
    RRes AnalysisError String :=
  match jlookup props field_name with
  | some (.str v) => .ok v
  | some p => .err (.IncorrectValueType "String" (jsonDebug p) typeNameValue)
  | none => .err (.MissingProperty field_name)

/-- `impl Extractor<Option<String>>`: optional string field
(absent or `null` both give `None`). -/
def extractOptString (props : List (String × Json)) (field_name : String) :
    RRes AnalysisError (Option String) :=
  match jlookup props field_name with
  | some (.str v) => .ok (some v)
  | some .null => .ok none
  | some p => .err (.IncorrectValueType "String" (jsonDebug p) typeNameRefValue)
  | none => .ok none

/-- `impl Extractor<i64>`: required integer field.  A numeric but
non-integer value makes `as_i64().expect("must be integer")` panic. -/
def extractI64 (props : List (String × Json)) (field_name : String) :
    RRes AnalysisError ℤ :=
  match jlookup props field_name with
  | some (.num q) =>
    match Json.asI64 (.num q) with
    | some n => .ok n
    | none => .crash
  | some p => .err (.IncorrectValueType "i64" (jsonDebug p) typeNameValue)
  | none => .err (.MissingProperty field_name)

/-- `impl Extractor<Option<i64>>`: optional integer field; a numeric field
that is not an integer gives `Ok(None)` (the code returns `Ok(value.as_i64())`). -/
def extractOptI64 (props : List (String × Json)) (field_name : String) :
    RRes AnalysisError (Option ℤ) :=
  match jlookup props field_name with
  | some (.num q) => .ok (Json.asI64 (.num q))
  | some .null => .ok none
  | some p => .err (.IncorrectValueType "Option<i64>" (jsonDebug p) typeNameValue)
  | none => .ok none

/-- The `Line` struct of `analysis.rs`. -/
structure Line where
  color : String
  id : ℤ
  name : String
  stroke : String
  text_color : String
  deriving DecidableEq

/-- `Line::try_from(Value)`: requires an object, then extracts the five
fields in source order. -/
def Line.tryFrom (value : Json) : RRes AnalysisError Line :=
  match value.asObject with
  | some object => do
    let color ← extractString object "color"
    let id ← extractI64 object "id"
    let name ← extractString object "name"
    let stroke ← extractString object "stroke"
    let text_color ← extractString object "text_color"
    pure ⟨color, id, name, stroke, text_color⟩
  | none => .err (.IncorrectType "Value::Object" typeNameValue)

/-! ### Model of the `geojson` crate's data as consumed by this repository

The crate's wire format is type-tagged: an object with `"type"` equal to
`"Feature"` or `"FeatureCollection"`, otherwise a geometry object.  The model
keeps the parts this repository touches (a feature's `properties` map and the
geometry passthrough); `bbox`, feature `id`, foreign members and
`GeometryCollection` are omitted. -/

/-- The geometry type names of the GeoJSON standard handled by the model. -/
inductive GeomType where
  | point
  | multiPoint
  | lineString
  | multiLineString
  | polygon
  | multiPolygon
  deriving DecidableEq

/-- The `"type"` field value for a geometry. -/
def GeomType.tagName : GeomType → String
  | .point => "Point"
  | .multiPoint => "MultiPoint"
  | .lineString => "LineString"
  | .multiLineString => "MultiLineString"
  | .polygon => "Polygon"
  | .multiPolygon => "MultiPolygon"

/-- A GeoJSON geometry: type tag plus raw coordinates value. -/
structure Geometry where
  gtype : GeomType
  coordinates : Json

/-- A GeoJSON feature: optional geometry plus optional property map. -/
structure Feature where
  geometry : Option Geometry
  properties : Option (List (String × Json))

/-- The `geojson::GeoJson` enum. -/
inductive GeoJson where
  | geometry (g : Geometry)
  | feature (f : Feature)
  | featureCollection (features : List Feature)

/-- The untagged `WebSocket` enum of `response_messages.rs`. -/
inductive WebSocket where
  | status (status : String)
  | pong (p : String)

/-- The `HealthCheck` struct. -/
structure HealthCheck where
  service : String
  healthy : Bool
  tenant : Option String

/-- The `Properties` struct (field `r#ref`). -/
structure Properties where
  ref : String

/-- The `ExtraGeoms` struct. -/
structure ExtraGeoms where
  type : String
  properties : Properties

/-- The `NewsTickerMessage` struct. -/
structure NewsTickerMessage where
  title : String
  lines : List String
  content : String
  updated : String

/-- The `SbmNewsTicker` struct. -/
structure SbmNewsTicker where
  incident_program : Option Bool
  messages : List NewsTickerMessage

/-- The `Content` enum: adjacently tagged
(`#[serde(tag = "source", content = "content")]`), variants in source order
with their `rename` strings recorded in the codec below. -/
inductive Content where
  | trajectorySchematic (g : GeoJson)
  | deletedVehiclesSchematic (s : Option String)
  | stationSchematic (g : GeoJson)
  | websocket (w : WebSocket)
  | extraGeoms (e : Option ExtraGeoms)
  | healthcheck (h : HealthCheck)
  | sbmNewsTicker (n : SbmNewsTicker)
  | trajectory (g : GeoJson)
  | deletedVehicles (s : Option String)
  | station (g : GeoJson)

/-- An `i8` value (the `client_reference` field). -/
def I8 : Type := { n : ℤ // -128 ≤ n ∧ n < 128 }

/-- The `ResponseMessage` struct: flattened `Content`, an `f64` timestamp
(modelled as `ℚ`) and an optional `i8` client reference. -/
structure ResponseMessage where
  content : Content
  timestamp : ℚ
  client_reference : Option I8

/-- The `Train` struct of `analysis.rs` (statistics projection). -/
structure Train where
  delay : Option String
  has_journey : Bool
  has_realtime : Bool
  has_realtime_journey : Bool
  line : Option Line
  operator_provides_realtime_journey : String
  original_line : Option String
  original_rake : Option String
  original_train_number : ℤ
  position_correction : ℤ
  rake : Option String
  raw_coordinates : Option Coordinate
  ride_state : Option String
  state : Option String
  tenant : String
  train_id : String
  train_number : Option ℤ
  transmitting_vehicle : Option String
  vehicle_number : Option String
  deriving DecidableEq

/-- `properties.get(name).map_or(false, |v| match v { Bool(b) => *b, _ => false })`:
the three `has_*` flags never error. -/
def getBoolOr (props : List (String × Json)) (field_name : String) : Bool :=
  match jlookup props field_name with
  | some (.bool b) => b
  | _ => false

/-- The `line` field of `Train::try_from`:
`get("line").filter(|l| !l.is_null()).map(|l| l.try_into()).transpose()?`. -/
def lineField (props : List (String × Json)) : RRes AnalysisError (Option Line) :=
  match jlookup props "line" with
  | none => .ok none
  | some .null => .ok none
  | some v =>
    match Line.tryFrom v with
    | .ok l => .ok (some l)
    | .err e => .err e
    | .crash => .crash

/-- The `raw_coordinates` field of `Train::try_from`:
`get("raw_coordinates").map(|x| x.try_into().unwrap())` — the `unwrap`
turns a conversion error into a panic. -/
def rawCoordField (props : List (String × Json)) : RRes AnalysisError (Option Coordinate) :=
  match jlookup props "raw_coordinates" with
  | none => .ok none
  | some v =>
    match Coordinate.tryFrom v with
    | .ok c => .ok (some c)
    | _ => .crash

/-- `Train::try_from(Content)`: only `TrajectorySchematic` single features
with a property map are accepted; fields are evaluated in the order they
appear in the Rust struct literal. -/
def Train.tryFrom : Content → RRes AnalysisError Train
  | .trajectorySchematic raw_train =>
    match raw_train with
    | .feature feature =>
      match feature.properties with
      | some properties => do
        let delay ← extractOptString properties "delay"
        let has_journey := getBoolOr properties "has_journey"
        let has_realtime := getBoolOr properties "has_realtime"
        let has_realtime_journey := getBoolOr properties "has_realtime_journey"
        let line ← lineField properties
        let oprj ← extractString properties "operator_provides_realtime_journey"
        let original_line ← extractOptString properties "original_line"
        let original_rake ← extractOptString properties "original_rake"
        let rake ← extractOptString properties "rake"
        let raw_coordinates ← rawCoordField properties
        let ride_state ← extractOptString properties "ride_state"
        let state ← extractOptString properties "state"
        let tenant ← extractString properties "tenant"
        let train_id ← extractString properties "train_id"
        let train_number ← extractOptI64 properties "train_number"
        let transmitting_vehicle ← extractOptString properties "transmitting_vehicle"
        let vehicle_number ← extractOptString properties "vehicle_number"
        pure { delay, has_journey, has_realtime, has_realtime_journey, line,
               operator_provides_realtime_journey := oprj, original_line, original_rake,
               original_train_number := 0, position_correction := 0, rake,
               raw_coordinates, ride_state, state, tenant, train_id, train_number,
               transmitting_vehicle, vehicle_number }
      | none => .err (.IncorrectType "Properties" typeNameOptionProperties)
    | _ => .err (.IncorrectType "Feature" typeNameGeoJson)
  | _ => .err (.IncorrectType "TrajectorySchematic" typeNameContent)

/-- The `ColorConversionError` enum (the `ParseInt` payload, a
`std::num::ParseIntError`, is dropped; its `Debug` text appears in
`colorErrString`). -/
inductive ColorConversionError where
  | WrongBeginning
  | ParseInt
  deriving DecidableEq

/-- The `macroquad` `Color` struct; `f32` channels modelled as `ℚ`. -/
structure Color where
  r : ℚ
  g : ℚ
  b : ℚ
  a : ℚ
  deriving DecidableEq

/-- `char::to_digit(16)`: hex digit value. -/
def hexVal (c : Char) : Option Nat :=
  if '0' ≤ c ∧ c ≤ '9' then some (c.toNat - '0'.toNat)
  else if 'a' ≤ c ∧ c ≤ 'f' then some (c.toNat - 'a'.toNat + 10)
  else if 'A' ≤ c ∧ c ≤ 'F' then some (c.toNat - 'A'.toNat + 10)
  else none

/-- `u8::from_str_radix(two-byte slice, 16)`: both characters hex digits, or a
leading `'+'` sign followed by one hex digit (Rust's integer parser accepts an
optional leading `'+'`); a `'-'` sign is rejected for unsigned targets. -/
def fromStrRadix16Pair (c1 c2 : Char) : Option Nat :=
  match hexVal c1, hexVal c2 with
  | some a, some b => some (16 * a + b)
  | _, _ => if c1 = '+' then hexVal c2 else none

/-- `try_color_from_string`, on the byte/char list of the input.  Mirrors the
source exactly: the `'#'` check first, then the three byte-range slices
`s[1..3]`, `s[3..5]`, `s[5..7]` parsed in order — a slice whose end exceeds
the string length panics (`crash`), and characters past index 6 are never
examined. -/
def try_color_from_string : List Char → RRes ColorConversionError Color
  | '#' :: rest =>
    match rest with
    | c1 :: c2 :: rest2 =>
      match fromStrRadix16Pair c1 c2 with
      | none => .err .ParseInt
      | some r =>
        match rest2 with
        | c3 :: c4 :: rest4 =>
          match fromStrRadix16Pair c3 c4 with
          | none => .err .ParseInt
          | some g =>
            match rest4 with
            | c5 :: c6 :: _ =>
              match fromStrRadix16Pair c5 c6 with
              | none => .err .ParseInt
              | some b => .ok ⟨(r : ℚ) / 255, (g : ℚ) / 255, (b : ℚ) / 255, 1⟩
            | _ => .crash
        | _ => .crash
    | _ => .crash
  | _ => .err .WrongBeginning

/-- `ColorConversionError::to_string()` (its `Display` impl); the `ParseInt`
branch prints the `Debug` form of the underlying `ParseIntError`. -/
def colorErrString : ColorConversionError → String
  | .WrongBeginning => "does not start with '#'"
  | .ParseInt => "ParseIntError \x7b kind: InvalidDigit \x7d"

/-- The generic linear range-mapping `fn map` of `analysis.rs`. -/
def map (value a_min a_max b_min b_max : ℚ) : ℚ :=
  (value - a_min) / (a_max - a_min) * (b_max - b_min) + b_min

/-- The `State` enum. -/
inductive State where
  | Driving
  | Boarding
  deriving DecidableEq

/-- `impl From<String> for State`. -/
def State.fromString (value : String) : State :=
  if value = "DRIVING" then .Driving else .Boarding

/-- The `Record` struct (replay projection). -/
structure Record where
  timestamp : String
  position : Coordinate
  line : String
  line_color : Color
  state : State
  vehicle_number : String
  train_number : ℤ
  deriving DecidableEq

/-- One `draw_circle` invocation. -/
structure DrawCall where
  x : ℚ
  y : ℚ
  radius : ℚ
  color : Color
  deriving DecidableEq

/-- `Record::render`: the circle drawn for this record, as a function of the
screen width and height (`screen_width()` / `screen_height()` are runtime
capabilities, passed here as parameters `w`, `h`). -/
def Record.renderCall (rec : Record) (w h : ℚ) : DrawCall :=
  ⟨map rec.position.longitude 11 12 0 w,
   map rec.position.latitude 47.5 48.5 h 0,
   5, rec.line_color⟩

/-- `.ok_or(err)?` on an `Option`. -/
def ofOption {α : Type} : Option α → AnalysisError → RRes AnalysisError α
  | some a, _ => .ok a
  | none, e => .err e

/-- `Record::try_from(ResponseMessage)`.  Field expressions are evaluated in
struct-literal order (position, line, line_color, state, vehicle_number,
train_number); the `line` object is fetched twice from the property map, once
for `name` and once for `color`; the `DeletedVehiclesSchematic` arm is
`todo!()`, i.e. a panic.  The Rust code renders the `f64` timestamp with
`to_string()`; the model renders the `ℚ` timestamp (no claim inspects the
text). -/
def Record.tryFrom (value : ResponseMessage) : RRes AnalysisError Record :=
  match value.content with
  | .trajectorySchematic trajectory =>
    match trajectory with
    | .feature feature =>
      match feature.properties with
      | some properties => do
        let posV ← ofOption (jlookup properties "raw_coordinates")
          (.MissingProperty "raw_coordinates")
        let position ← Coordinate.tryFrom posV
        let lineV ← ofOption (jlookup properties "line") (.MissingProperty "line")
        let lineObj ← ofOption lineV.asObject (.IncorrectType "object" "unknown")
        let nameV ← ofOption (jlookup lineObj "name") (.MissingProperty "name")
        let lineName ← ofOption nameV.asStr (.IncorrectType "string" "unknown")
        let lineV2 ← ofOption (jlookup properties "line") (.MissingProperty "line")
        let lineObj2 ← ofOption lineV2.asObject (.IncorrectType "object" "unknown")
        let colorV ← ofOption (jlookup lineObj2 "color") (.MissingProperty "color")
        let colorS ← ofOption colorV.asStr (.IncorrectType "string" "unknown")
        let line_color ←
          match try_color_from_string colorS.toList with
          | .ok c => RRes.ok c
          | .err cce => .err (.IncorrectType "Color" (colorErrString cce))
          | .crash => .crash
        let stateV ← ofOption (jlookup properties "state") (.MissingProperty "state")
        let stateS ← ofOption stateV.asStr (.MissingProperty "state")
        let vnV ← ofOption (jlookup properties "vehicle_number")
          (.MissingProperty "vehicle_number")
        let vehicle_number ← ofOption vnV.asStr (.MissingProperty "vehicle_number")
        let tnV ← ofOption (jlookup properties "train_number")
          (.MissingProperty "train_number")
        let train_number ← ofOption tnV.asI64 (.IncorrectType "i64" "unknown")
        pure ⟨toString value.timestamp, position, lineName, line_color,
              State.fromString stateS, vehicle_number, train_number⟩
      | none => .err (.MissingProperty "properties")
    | _ => .err (.IncorrectType "GeoJson::Feature" typeNameGeoJson)
  | .deletedVehiclesSchematic _ => .crash
  | _ => .err (.IncorrectType "Content::TrajectorySchematic" typeNameContent)

/-- The `Vehicle` struct: identity plus append-only record timeline. -/
structure Vehicle where
  number : String
  records : List Record
  deriving DecidableEq

/-- `Vehicle::from_record`: single-element timeline. -/
def Vehicle.from_record (r : Record) : Vehicle :=
  ⟨r.vehicle_number, [r]⟩

/-- `Vehicle::update`: push at the end. -/
def Vehicle.update (v : Vehicle) (r : Record) : Vehicle :=
  ⟨v.number, v.records ++ [r]⟩

/-- `Vehicle::render(idx)`: the draw call issued for this vehicle at frame
`idx` — `records.get(idx)` drawn if present, nothing otherwise. -/
def Vehicle.render (v : Vehicle) (w h : ℚ) (idx : Nat) : Option DrawCall :=
  (v.records[idx]?).map (Record.renderCall · w h)

/-- The `Trains` store (`HashMap<String, Vehicle>` modelled as a function). -/
def Trains : Type := String → Option Vehicle

/-- `Trains::new()`. -/
def Trains.empty : Trains := fun _ => none

/-- `Trains::insert(record)`: append to the vehicle filed under the record's
`vehicle_number`, creating it from the record on first sight. -/
def Trains.insert (t : Trains) (r : Record) : Trains :=
  match t r.vehicle_number with
  | some v => fun k => if k = r.vehicle_number then some (v.update r) else t k
  | none => fun k => if k = r.vehicle_number then some (Vehicle.from_record r) else t k

/-- `Trains::render(idx)` restricted to the vehicle stored at key `k` (the
`HashMap` iteration order is irrelevant to what each vehicle draws). -/
def Trains.renderAt (t : Trains) (k : String) (w h : ℚ) (idx : Nat) : Option DrawCall :=
  match t k with
  | some v => v.render w h idx
  | none => none

/-- The `Counter` aggregator (`HashMap<T, usize>` as a function; absent keys
count 0). -/
def Counter (α : Type) : Type := α → Nat

/-- `Counter::new()`. -/
def Counter.new {α : Type} : Counter α := fun _ => 0

/-- `Counter::insert(k)`: increment `k`'s bucket. -/
def Counter.insert {α : Type} [DecidableEq α] (c : Counter α) (k : α) : Counter α :=
  fun k' => if k' = k then c k + 1 else c k'

/-! ### The serde codec of `ResponseMessage`

`ResponseMessage` derives `Serialize`/`Deserialize`; `Content` is adjacently
tagged (`tag = "source"`, `content = "content"`) and flattened into the
envelope next to `timestamp` and `client_reference`.  The derived codec is
modelled here: serialization writes the fields in declaration order,
deserialization looks fields up by name (`source` dispatch per the `rename`
attributes, unknown tags are serde "unknown variant" errors — the enum has no
fallback variant). -/

/-- Stage-1 decode errors (`serde_json` error classes the claims distinguish). -/
inductive DecodeError where
  | unknownVariant (tag : String)
  | shape
  deriving DecidableEq

/-- Encode an optional string (`None` ↦ `null`). -/
def encodeOptString : Option String → Json
  | none => .null
  | some s => .str s

/-- Decode an `Option<String>`. -/
def decodeOptString : Json → Except DecodeError (Option String)
  | .null => .ok none
  | .str s => .ok (some s)
  | _ => .error .shape

def encodeGeometry (g : Geometry) : Json :=
  .obj [("type", .str g.gtype.tagName), ("coordinates", g.coordinates)]

def decodeGeometry : Json → Except DecodeError Geometry
  | .obj o =>
    match jlookup o "type" with
    | some (.str t) =>
      match
        (if t = "Point" then some GeomType.point
         else if t = "MultiPoint" then some .multiPoint
         else if t = "LineString" then some .lineString
         else if t = "MultiLineString" then some .multiLineString
         else if t = "Polygon" then some .polygon
         else if t = "MultiPolygon" then some .multiPolygon
         else none) with
      | some gt =>
        match jlookup o "coordinates" with
        | some c => .ok ⟨gt, c⟩
        | none => .error .shape
      | none => .error .shape
    | _ => .error .shape
  | _ => .error .shape

def encodeFeature (f : Feature) : Json :=
  .obj [("type", .str "Feature"),
        ("geometry", match f.geometry with | none => .null | some g => encodeGeometry g),
        ("properties", match f.properties with | none => .null | some m => .obj m)]

def decodeFeature : Json → Except DecodeError Feature
  | .obj o =>
    match jlookup o "type" with
    | some (.str "Feature") => do
      let geometry ←
        match jlookup o "geometry" with
        | none => Except.ok none
        | some .null => Except.ok none
        | some g => (decodeGeometry g).map some
      let properties ←
        match jlookup o "properties" with
        | none => Except.ok none
        | some .null => Except.ok none
        | some (.obj m) => Except.ok (some m)
        | some _ => Except.error .shape
      pure ⟨geometry, properties⟩
    | _ => .error .shape
  | _ => .error .shape

def decodeFeatures : List Json → Except DecodeError (List Feature)
  | [] => .ok []
  | j :: rest => do
    let f ← decodeFeature j
    let fs ← decodeFeatures rest
    pure (f :: fs)

def encodeGeoJson : GeoJson → Json
  | .geometry g => encodeGeometry g
  | .feature f => encodeFeature f
  | .featureCollection fs =>
    .obj [("type", .str "FeatureCollection"), ("features", .arr (fs.map encodeFeature))]

/-- The `geojson` crate's type-tagged decode: `"Feature"`,
`"FeatureCollection"`, or a geometry type name. -/
def decodeGeoJson (j : Json) : Except DecodeError GeoJson :=
  match j with
  | .obj o =>
    match jlookup o "type" with
    | some (.str t) =>
      if t = "Feature" then (decodeFeature j).map .feature
      else if t = "FeatureCollection" then
        match jlookup o "features" with
        | some (.arr items) => (decodeFeatures items).map .featureCollection
        | _ => .error .shape
      else (decodeGeometry j).map .geometry
    | _ => .error .shape
  | _ => .error .shape

def encodeWebSocket : WebSocket → Json
  | .status s => .obj [("status", .str s)]
  | .pong p => .str p

/-- Untagged decode: try `Status { status }`, then `Pong(String)`. -/
def decodeWebSocket : Json → Except DecodeError WebSocket
  | .obj o =>
    match jlookup o "status" with
    | some (.str s) => .ok (.status s)
    | _ => .error .shape
  | .str p => .ok (.pong p)
  | _ => .error .shape

def encodeHealthCheck (h : HealthCheck) : Json :=
  .obj [("service", .str h.service), ("healthy", .bool h.healthy),
        ("tenant", encodeOptString h.tenant)]

def decodeHealthCheck : Json → Except DecodeError HealthCheck
  | .obj o => do
    let service ←
      match jlookup o "service" with
      | some (.str s) => Except.ok s
      | _ => Except.error .shape
    let healthy ←
      match jlookup o "healthy" with
      | some (.bool b) => Except.ok b
      | _ => Except.error .shape
    let tenant ←
      match jlookup o "tenant" with
      | none => Except.ok none
      | some v => decodeOptString v
    pure ⟨service, healthy, tenant⟩
  | _ => .error .shape

def encodeExtraGeoms (e : ExtraGeoms) : Json :=
  .obj [("type", .str e.type), ("properties", .obj [("ref", .str e.properties.ref)])]

def decodeExtraGeoms : Json → Except DecodeError ExtraGeoms
  | .obj o => do
    let t ←
      match jlookup o "type" with
      | some (.str s) => Except.ok s
      | _ => Except.error .shape
    let r ←
      match jlookup o "properties" with
      | some (.obj p) =>
        match jlookup p "ref" with
        | some (.str s) => Except.ok s
        | _ => Except.error .shape
      | _ => Except.error .shape
    pure ⟨t, ⟨r⟩⟩
  | _ => .error .shape

def decodeOptExtraGeoms : Json → Except DecodeError (Option ExtraGeoms)
  | .null => .ok none
  | j => (decodeExtraGeoms j).map some

def encodeStrings (xs : List String) : Json := .arr (xs.map .str)

def decodeStrings : List Json → Except DecodeError (List String)
  | [] => .ok []
  | .str s :: rest => (decodeStrings rest).map (s :: ·)
  | _ => .error .shape

def encodeNewsTickerMessage (m : NewsTickerMessage) : Json :=
  .obj [("title", .str m.title), ("lines", encodeStrings m.lines),
        ("content", .str m.content), ("updated", .str m.updated)]

def decodeNewsTickerMessage : Json → Except DecodeError NewsTickerMessage
  | .obj o => do
    let title ←
      match jlookup o "title" with
      | some (.str s) => Except.ok s
      | _ => Except.error .shape
    let lns ←
      match jlookup o "lines" with
      | some (.arr xs) => decodeStrings xs
      | _ => Except.error .shape
    let content ←
      match jlookup o "content" with
      | some (.str s) => Except.ok s
      | _ => Except.error .shape
    let updated ←
      match jlookup o "updated" with
      | some (.str s) => Except.ok s
      | _ => Except.error .shape
    pure ⟨title, lns, content, updated⟩
  | _ => .error .shape

def decodeNewsTickerMessages : List Json → Except DecodeError (List NewsTickerMessage)
  | [] => .ok []
  | j :: rest => do
    let m ← decodeNewsTickerMessage j
    let ms ← decodeNewsTickerMessages rest
    pure (m :: ms)

def encodeSbmNewsTicker (n : SbmNewsTicker) : Json :=
  .obj [("incident_program",
          match n.incident_program with | none => .null | some b => .bool b),
        ("messages", .arr (n.messages.map encodeNewsTickerMessage))]

def decodeSbmNewsTicker : Json → Except DecodeError SbmNewsTicker
  | .obj o => do
    let ip ←
      match jlookup o "incident_program" with
      | none => Except.ok none
      | some .null => Except.ok none
      | some (.bool b) => Except.ok (some b)
      | some _ => Except.error .shape
    let msgs ←
      match jlookup o "messages" with
      | some (.arr xs) => decodeNewsTickerMessages xs
      | _ => Except.error .shape
    pure ⟨ip, msgs⟩
  | _ => .error .shape

/-- The `rename` string of each `Content` variant. -/
def Content.tag : Content → String
  | .trajectorySchematic _ => "trajectory_schematic"
  | .deletedVehiclesSchematic _ => "deleted_vehicles_schematic"
  | .stationSchematic _ => "station_schematic"
  | .websocket _ => "websocket"
  | .extraGeoms _ => "extra_geoms"
  | .healthcheck _ => "healthcheck"
  | .sbmNewsTicker _ => "sbm_newsticker"
  | .trajectory _ => "trajectory"
  | .deletedVehicles _ => "deleted_vehicles"
  | .station _ => "station"

/-- The serialized `"content"` payload of a `Content` value. -/
def encodeContentPayload : Content → Json
  | .trajectorySchematic g => encodeGeoJson g
  | .deletedVehiclesSchematic s => encodeOptString s
  | .stationSchematic g => encodeGeoJson g
  | .websocket w => encodeWebSocket w
  | .extraGeoms e => match e with | none => .null | some x => encodeExtraGeoms x
  | .healthcheck h => encodeHealthCheck h
  | .sbmNewsTicker n => encodeSbmNewsTicker n
  | .trajectory g => encodeGeoJson g
  | .deletedVehicles s => encodeOptString s
  | .station g => encodeGeoJson g

/-- Adjacently-tagged decode of `Content` from the (flattened) envelope
object: read `"source"`, dispatch on the known rename strings, decode
`"content"` accordingly; an unknown tag is serde's "unknown variant" error. -/
def decodeContent (j : Json) : Except DecodeError Content :=
  match j with
  | .obj o =>
    match jlookup o "source" with
    | some (.str tag) =>
      let content := (jlookup o "content").getD .null
      if tag = "trajectory_schematic" then (decodeGeoJson content).map .trajectorySchematic
      else if tag = "deleted_vehicles_schematic" then
        (decodeOptString content).map .deletedVehiclesSchematic
      else if tag = "station_schematic" then (decodeGeoJson content).map .stationSchematic
      else if tag = "websocket" then (decodeWebSocket content).map .websocket
      else if tag = "extra_geoms" then (decodeOptExtraGeoms content).map .extraGeoms
      else if tag = "healthcheck" then (decodeHealthCheck content).map .healthcheck
      else if tag = "sbm_newsticker" then (decodeSbmNewsTicker content).map .sbmNewsTicker
      else if tag = "trajectory" then (decodeGeoJson content).map .trajectory
      else if tag = "deleted_vehicles" then (decodeOptString content).map .deletedVehicles
      else if tag = "station" then (decodeGeoJson content).map .station
      else .error (.unknownVariant tag)
    | _ => .error .shape
  | _ => .error .shape

/-- Serialize a `ResponseMessage`: flattened tag and payload first (field
declaration order), then `timestamp` and `client_reference`. -/
def encodeResponseMessage (m : ResponseMessage) : Json :=
  .obj [("source", .str m.content.tag),
        ("content", encodeContentPayload m.content),
        ("timestamp", .num m.timestamp),
        ("client_reference",
          match m.client_reference with | none => .null | some n => .num (n.val : ℚ))]

/-- Deserialize a `ResponseMessage`: the named fields are read from the
object, then the remaining (flattened) content is decoded as `Content`. -/
def decodeResponseMessage (j : Json) : Except DecodeError ResponseMessage :=
  match j with
  | .obj o => do
    let ts ←
      match jlookup o "timestamp" with
      | some (.num q) => Except.ok q
      | _ => Except.error .shape
    let cref ←
      match jlookup o "client_reference" with
      | none => Except.ok none
      | some .null => Except.ok none
      | some (.num q) =>
        if h : q.den = 1 ∧ -128 ≤ q.num ∧ q.num < 128 then
          Except.ok (some ⟨q.num, h.2⟩)
        else Except.error .shape
      | some _ => Except.error .shape
    let content ← decodeContent j
    pure ⟨content, ts, cref⟩
  | _ => .error .shape

/-! ### The offline scan of `main` (analysis.rs) -/

/-- The mutable state of the scan loop in `main`.  `parse_reports` counts the
`eprintln!("…unable to parse…")` diagnostics, `train_reports` the
`eprintln!("should be train…")` ones. -/
structure ScanState where
  trains : Nat
  delays : Counter (Option String)
  states : Counter (Option String)
  ride_states : Counter (Option String)
  original_lines : Counter (Option String)
  lines : Counter (Option Line)
  persistent_trains : Trains
  parse_reports : Nat
  train_reports : Nat

/-- The initial scan state. -/
def ScanState.init : ScanState :=
  ⟨0, Counter.new, Counter.new, Counter.new, Counter.new, Counter.new,
   Trains.empty, 0, 0⟩

/-- One line of the log as seen by `main`: empty, valid JSON (modelled
value), or text that `serde_json` cannot parse at all. -/
inductive RawLine where
  | empty
  | json (j : Json)
  | malformed

/-- The body of the `for line in reader.lines()` loop: parse-and-decode the
line; on failure report and continue; on a `TrajectorySchematic` envelope run
the `Train` projection (count + aggregate, or report) and, independently, the
`Record` projection (insert, or silently skip); other variants do nothing.  A
panic inside either projection aborts the program (`crash`). -/
def processLine (st : ScanState) (l : RawLine) : RRes Empty ScanState :=
  match l with
  | .empty => .ok st
  | .malformed => .ok { st with parse_reports := st.parse_reports + 1 }
  | .json j =>
    match decodeResponseMessage j with
    | .error _ => .ok { st with parse_reports := st.parse_reports + 1 }
    | .ok m =>
      match m.content with
      | .trajectorySchematic g =>
        let afterTrain : RRes Empty ScanState :=
          match Train.tryFrom (.trajectorySchematic g) with
          | .ok train =>
            .ok { st with
                  trains := st.trains + 1,
                  delays := st.delays.insert train.delay,
                  states := st.states.insert train.state,
                  ride_states := st.ride_states.insert train.ride_state,
                  original_lines := st.original_lines.insert train.original_line,
                  lines := st.lines.insert train.line }
          | .err _ => .ok { st with train_reports := st.train_reports + 1 }
          | .crash => .crash
        match afterTrain with
        | .ok st1 =>
          match Record.tryFrom m with
          | .ok record =>
            .ok { st1 with persistent_trains := st1.persistent_trains.insert record }
          | .err _ => .ok st1
          | .crash => .crash
        | other => other
      | _ => .ok st

/-- Fold the loop body over the remaining lines, aborting on a panic. -/
def scanFrom (st : ScanState) : List RawLine → RRes Empty ScanState
  | [] => .ok st
  | l :: rest =>
    match processLine st l with
    | .ok st' => scanFrom st' rest
    | .err e => .err e
    | .crash => .crash

/-- The whole offline scan, from the initial state. -/
def scan (ls : List RawLine) : RRes Empty ScanState :=
  scanFrom ScanState.init ls

/-! ### Concrete data used by the claim theorems and their witnesses -/

/-- The ten rename strings the `Content` decoder recognizes. -/
def knownDiscriminators : List String :=
  ["trajectory_schematic", "deleted_vehicles_schematic", "station_schematic",
   "websocket", "extra_geoms", "healthcheck", "sbm_newsticker", "trajectory",
   "deleted_vehicles", "station"]

/-- A concrete record (integer-valued fields, for witnesses). -/
def demoRecord1 : Record :=
  ⟨"1", ⟨48, 11⟩, "S1", ⟨1, 0, 0, 1⟩, .Driving, "v1", 100⟩

/-- A second concrete record for the same vehicle. -/
def demoRecord2 : Record :=
  ⟨"2", ⟨49, 12⟩, "S1", ⟨1, 0, 0, 1⟩, .Boarding, "v1", 100⟩

/-- A concrete trajectory property map with every field `Record` needs and
every `Train` field extracted before `train_id`, but no `train_id`. -/
def c7props : List (String × Json) :=
  [("line", .obj [("color", .str "#1A2B3C"), ("id", .num 1), ("name", .str "S1"),
     ("stroke", .str "#444444"), ("text_color", .str "#FFFFFF")]),
   ("operator_provides_realtime_journey", .str "op"),
   ("raw_coordinates", .arr [.num 11, .num 48]),
   ("state", .str "DRIVING"),
   ("tenant", .str "sbm"),
   ("train_number", .num 123),
   ("vehicle_number", .str "v1")]

/-- A complete, valid trajectory property map (all fields both projections
need). -/
def c8props : List (String × Json) :=
  [("line", .obj [("color", .str "#1A2B3C"), ("id", .num 1), ("name", .str "S1"),
     ("stroke", .str "#444444"), ("text_color", .str "#FFFFFF")]),
   ("operator_provides_realtime_journey", .str "op"),
   ("raw_coordinates", .arr [.num 11, .num 48]),
   ("state", .str "DRIVING"),
   ("tenant", .str "sbm"),
   ("train_id", .str "t1"),
   ("train_number", .num 123),
   ("vehicle_number", .str "v1")]

/-- A fully valid trajectory envelope. -/
def c8msg : ResponseMessage :=
  ⟨.trajectorySchematic (.feature ⟨none, some c8props⟩), 1, none⟩

/-- The serialized form of `c8msg` — one valid log line. -/
def c8json : Json := encodeResponseMessage c8msg

/-- The `Train` that `c8msg` decodes to. -/
def c8train : Train :=
  ⟨none, false, false, false, some ⟨"#1A2B3C", 1, "S1", "#444444", "#FFFFFF"⟩,
   "op", none, none, 0, 0, none, some ⟨48, 11⟩, none, some "DRIVING", "sbm",
   "t1", some 123, none, some "v1"⟩

/-- The `Record` that `c8msg` decodes to. -/
def c8record : Record :=
  ⟨toString (1 : ℚ), ⟨48, 11⟩, "S1",
   ⟨((26 : ℕ) : ℚ) / 255, ((43 : ℕ) : ℚ) / 255, ((60 : ℕ) : ℚ) / 255, 1⟩,
   .Driving, "v1", 123⟩

/-! ## Claims -/

/-- C1: Coordinate decoding consumes a two-numeric-entry JSON array in
longitude-then-latitude order — the first element becomes the `longitude`
field and the second the `latitude` field; in particular `[11.58, 48.14]`
decodes to longitude 11.58 and latitude 48.14. -/
theorem coordinate_axis_order :
    (∀ x y : ℚ, Coordinate.tryFrom (.arr [.num x, .num y]) =
      .ok { latitude := y, longitude := x }) ∧
    Coordinate.tryFrom (.arr [.num 11.58, .num 48.14]) =
      .ok { latitude := 48.14, longitude := 11.58 } :=
  ⟨fun _ _ => rfl, rfl⟩

/-- C3 (the code at the failing input): a one-element coordinate array is
rejected with `MissingItems(3, 1)`, not `MissingItems(2, 1)` — the code
hard-codes `3` as the expected amount although its own length check tests
for `2`. -/
theorem missing_items_expected_three :
    Coordinate.tryFrom (.arr [.num 1]) = .err (.MissingItems 3 1) ∧
    Coordinate.tryFrom (.arr [.num 1]) ≠ .err (.MissingItems 2 1) :=
  ⟨rfl, by decide⟩

/-- C4 (the code at the failing inputs): stage-2 extraction is not total —
a two-element `raw_coordinates` array with a non-numeric entry panics
(`expect` in `Coordinate::try_from`, `unwrap` in `Train::try_from`) instead
of returning `IncorrectType`, both through `Coordinate::try_from` directly,
through `Train::try_from`, and through `Record::try_from`; the
`DeletedVehiclesSchematic` arm of `Record::try_from` is `todo!()`, another
panic. -/
theorem stage2_panics_on_nonnumeric_coordinate :
    Coordinate.tryFrom (.arr [.str "x", .num 48.14]) = .crash ∧
    Train.tryFrom (.trajectorySchematic (.feature ⟨none, some
      [("operator_provides_realtime_journey", .str "op"),
       ("raw_coordinates", .arr [.str "x", .num 48.14])]⟩)) = .crash ∧
    Record.tryFrom ⟨.trajectorySchematic (.feature ⟨none, some
      [("raw_coordinates", .arr [.str "x", .num 48.14])]⟩), 0, none⟩ = .crash ∧
    Record.tryFrom ⟨.deletedVehiclesSchematic none, 0, none⟩ = .crash :=
  ⟨rfl, rfl, rfl, rfl⟩

/-- C2 counterexample: an envelope line with the unknown discriminator
`"bogus"` makes Stage-1 decoding return serde's unknown-variant error — it
does not succeed with any "unrecognized" content value (the `Content` enum
has no fallback variant). -/
theorem unknown_discriminator_is_error :
    decodeResponseMessage (.obj [("source", .str "bogus"), ("content", .null),
      ("timestamp", .num 0), ("client_reference", .null)]) =
    .error (.unknownVariant "bogus") := rfl

/-- C2 amended: for every envelope line whose discriminator is not one of the
known discriminators (and whose envelope-level fields are otherwise
well-formed), Stage-1 decoding fails with serde's unknown-variant parse
error; no distinct "unrecognized" content value exists, and the caller skips
the line. -/
theorem unknown_discriminator_unknown_variant
    (tag : String) (payload : Json) (ts : ℚ)
    (hunknown : tag ∉ knownDiscriminators) :
    decodeResponseMessage (.obj [("source", .str tag), ("content", payload),
      ("timestamp", .num ts), ("client_reference", .null)]) =
    .error (.unknownVariant tag) := by
  simp only [knownDiscriminators, List.mem_cons, List.not_mem_nil, or_false,
    not_or] at hunknown
  obtain ⟨h1, h2, h3, h4, h5, h6, h7, h8, h9, h10⟩ := hunknown
  simp [decodeResponseMessage, decodeContent, jlookup, Bind.bind, Except.bind,
    h1, h2, h3, h4, h5, h6, h7, h8, h9, h10]

/-- C2 amended, witness at the discriminator `"bogus"`. -/
theorem unknown_discriminator_unknown_variant_witness :
    decodeResponseMessage (.obj [("source", .str "bogus"), ("content", .null),
      ("timestamp", .num 7), ("client_reference", .null)]) =
    .error (.unknownVariant "bogus") :=
  unknown_discriminator_unknown_variant "bogus" .null 7 (by decide)

/-- C7 counterexample: a trajectory feature whose property map lacks
`train_id` does not always fail with `MissingProperty("train_id")` — when
the map also lacks `tenant` (extracted earlier in struct-literal order), the
statistics projection fails with `MissingProperty("tenant")` instead. -/
theorem missing_train_id_not_always_reported :
    jlookup [("operator_provides_realtime_journey", Json.str "x")] "train_id" = none ∧
    Train.tryFrom (.trajectorySchematic (.feature ⟨none,
      some [("operator_provides_realtime_journey", .str "x")]⟩)) =
      .err (.MissingProperty "tenant") ∧
    (.err (.MissingProperty "tenant") : RRes AnalysisError Train) ≠
      .err (.MissingProperty "train_id") :=
  ⟨rfl, rfl, by decide⟩

/-- C5 counterexample: color parsing does not accept *exactly* the
7-character `#`-plus-six-hex-digits strings — the 9-character string
`"#1A2B3C00"` is also accepted (characters past index 6 are never examined),
with the same channels as `"#1A2B3C"`. -/
theorem color_accepts_longer_strings :
    "#1A2B3C00".length = 9 ∧
    try_color_from_string "#1A2B3C00".toList =
      .ok ⟨26 / 255, 43 / 255, 60 / 255, 1⟩ := by
  refine ⟨rfl, ?_⟩
  have h : try_color_from_string "#1A2B3C00".toList =
      .ok ⟨((26 : ℕ) : ℚ) / 255, ((43 : ℕ) : ℚ) / 255, ((60 : ℕ) : ℚ) / 255, 1⟩ := rfl
  rw [h]
  simp only [RRes.ok.injEq, Color.mk.injEq]
  norm_num

/-- C5 amended: color parsing requires the `'#'` prefix and then parses the
characters at positions 1–6 as three two-character hex pairs (Rust's integer
parser also admits a leading `'+'` in a pair), ignoring all characters past
position 6 — so every sufficiently long `'#'`-prefixed string with valid
pairs is accepted, with channel fractions `byte/255.0` and alpha 1.0; a
string not starting with `'#'` fails with the distinct wrong-prefix error; a
`'#'`-prefixed string shorter than 7 characters panics on byte slicing or
fails with the parse error, and an invalid hex digit fails with the distinct
parse error (e.g. `"#GGHHII"`); `"#1A2B3C"` gives (26/255, 43/255, 60/255, 1.0). -/
theorem color_parse_characterization :
    (∀ (c1 c2 c3 c4 c5 c6 : Char) (rest : List Char) (r g b : Nat),
        fromStrRadix16Pair c1 c2 = some r →
        fromStrRadix16Pair c3 c4 = some g →
        fromStrRadix16Pair c5 c6 = some b →
        try_color_from_string ('#' :: c1 :: c2 :: c3 :: c4 :: c5 :: c6 :: rest) =
          .ok ⟨(r : ℚ) / 255, (g : ℚ) / 255, (b : ℚ) / 255, 1⟩) ∧
    (∀ cs : List Char, cs.head? ≠ some '#' →
        try_color_from_string cs = .err .WrongBeginning) ∧
    (∀ rest : List Char, rest.length < 6 →
        try_color_from_string ('#' :: rest) = .crash ∨
        try_color_from_string ('#' :: rest) = .err .ParseInt) ∧
    try_color_from_string "#1A2B3C".toList = .ok ⟨26 / 255, 43 / 255, 60 / 255, 1⟩ ∧
    try_color_from_string "#GGHHII".toList = .err .ParseInt := by
  have hc : try_color_from_string "#1A2B3C".toList =
      .ok ⟨((26 : ℕ) : ℚ) / 255, ((43 : ℕ) : ℚ) / 255, ((60 : ℕ) : ℚ) / 255, 1⟩ := rfl
  refine ⟨?_, ?_, ?_,
    by rw [hc]; simp only [RRes.ok.injEq, Color.mk.injEq]; norm_num,
    by decide⟩
  · intro c1 c2 c3 c4 c5 c6 rest r g b h1 h2 h3
    simp [try_color_from_string, h1, h2, h3]
  · intro cs h
    rw [try_color_from_string.eq_def]
    split
    · simp at h
    · rfl
  · intro rest hlen
    cases rest with
    | nil => left; rfl
    | cons c1 t1 =>
      cases t1 with
      | nil => left; rfl
      | cons c2 t2 =>
        cases h12 : fromStrRadix16Pair c1 c2 with
        | none => right; simp [try_color_from_string, h12]
        | some r =>
          cases t2 with
          | nil => left; simp [try_color_from_string, h12]
          | cons c3 t3 =>
            cases t3 with
            | nil => left; simp [try_color_from_string, h12]
            | cons c4 t4 =>
              cases h34 : fromStrRadix16Pair c3 c4 with
              | none => right; simp [try_color_from_string, h12, h34]
              | some g =>
                cases t4 with
                | nil => left; simp [try_color_from_string, h12, h34]
                | cons c5 t5 =>
                  cases t5 with
                  | nil => left; simp [try_color_from_string, h12, h34]
                  | cons c6 t6 =>
                    exfalso
                    simp [List.length] at hlen
                    omega

/-- C5 amended, witness: the general acceptance applied at `"#1A2B3C00"`
(trailing characters ignored), the wrong-prefix case at `"1A"`, and the
short-string case at `"#1"`. -/
theorem color_parse_characterization_witness :
    try_color_from_string ('#' :: '1' :: 'A' :: '2' :: 'B' :: '3' :: 'C' :: ['0', '0']) =
      .ok ⟨((26 : ℕ) : ℚ) / 255, ((43 : ℕ) : ℚ) / 255, ((60 : ℕ) : ℚ) / 255, 1⟩ ∧
    try_color_from_string ('1' :: ['A']) = .err .WrongBeginning ∧
    (try_color_from_string ('#' :: ['1']) = .crash ∨
     try_color_from_string ('#' :: ['1']) = .err .ParseInt) :=
  ⟨color_parse_characterization.1 '1' 'A' '2' 'B' '3' 'C' ['0', '0'] 26 43 60
      (by decide) (by decide) (by decide),
   color_parse_characterization.2.1 ('1' :: ['A']) (by decide),
   color_parse_characterization.2.2.1 ['1'] (by decide)⟩

/-- Folding `Trains::insert` over records of one vehicle appends them, in
order, to that vehicle's timeline. -/
theorem foldl_insert_append (n : String) (rs : List Record) :
    ∀ (t : Trains) (num : String) (acc : List Record),
      (∀ r ∈ rs, r.vehicle_number = n) →
      t n = some ⟨num, acc⟩ →
      (rs.foldl Trains.insert t) n = some ⟨num, acc ++ rs⟩ := by
  induction rs with
  | nil => intro t num acc _ ht; simpa using ht
  | cons r rest ih =>
    intro t num acc hall ht
    have hr : r.vehicle_number = n := hall r (by simp)
    have hrest : ∀ x ∈ rest, x.vehicle_number = n := fun x hx => hall x (by simp [hx])
    have hins : (t.insert r) n = some ⟨num, acc ++ [r]⟩ := by
      unfold Trains.insert
      rw [hr, ht]
      simp [Vehicle.update]
    simp only [List.foldl_cons]
    have := ih (t.insert r) num (acc ++ [r]) hrest hins
    simpa [List.append_assoc] using this

/-- C6: inserting N records of one vehicle, in arrival order, into the empty
history gives that vehicle exactly that timeline in that order, and frame `i`
draws that vehicle's record at position `i` when `i < N` and nothing when
`i ≥ N`. -/
theorem vehicle_timeline_order
    (n : String) (r0 : Record) (rs : List Record) (w h : ℚ)
    (h0 : r0.vehicle_number = n)
    (hall : ∀ r ∈ rs, r.vehicle_number = n) :
    (((r0 :: rs).foldl Trains.insert Trains.empty) n = some ⟨n, r0 :: rs⟩) ∧
    (∀ i, ∀ hi : i < (r0 :: rs).length,
      Trains.renderAt ((r0 :: rs).foldl Trains.insert Trains.empty) n w h i =
        some (Record.renderCall ((r0 :: rs).get ⟨i, hi⟩) w h)) ∧
    (∀ i, (r0 :: rs).length ≤ i →
      Trains.renderAt ((r0 :: rs).foldl Trains.insert Trains.empty) n w h i = none) := by
  have hins0 : (Trains.empty.insert r0) n = some ⟨n, [r0]⟩ := by
    unfold Trains.insert Trains.empty Vehicle.from_record
    simp [h0]
  have hfold : ((r0 :: rs).foldl Trains.insert Trains.empty) n = some ⟨n, r0 :: rs⟩ := by
    simp only [List.foldl_cons]
    simpa using foldl_insert_append n rs (Trains.empty.insert r0) n [r0] hall hins0
  refine ⟨hfold, ?_, ?_⟩
  · intro i hi
    simp only [Trains.renderAt, hfold, Vehicle.render]
    rw [List.getElem?_eq_getElem hi]
    simp [List.get_eq_getElem]
  · intro i hi
    simp only [Trains.renderAt, hfold, Vehicle.render]
    rw [List.getElem?_eq_none hi]
    rfl

/-- C6, witness: two records for vehicle `"v1"` on a 800×600 surface. -/
theorem vehicle_timeline_order_witness :
    (([demoRecord1, demoRecord2].foldl Trains.insert Trains.empty) "v1" =
      some ⟨"v1", [demoRecord1, demoRecord2]⟩) ∧
    Trains.renderAt ([demoRecord1, demoRecord2].foldl Trains.insert Trains.empty)
      "v1" 800 600 0 = some (Record.renderCall demoRecord1 800 600) ∧
    Trains.renderAt ([demoRecord1, demoRecord2].foldl Trains.insert Trains.empty)
      "v1" 800 600 2 = none := by
  have main := vehicle_timeline_order "v1" demoRecord1 [demoRecord2] 800 600
    (by decide) (by decide)
  exact ⟨main.1, main.2.1 0 (by decide), main.2.2 2 (by decide)⟩

/-- One `Trains::insert` preserves the filing invariant: every stored vehicle
carries its key as its number and only records bearing that number. -/
theorem insert_preserves_filed (t : Trains)
    (hinv : ∀ k v, t k = some v → v.number = k ∧ ∀ r ∈ v.records, r.vehicle_number = k)
    (r : Record) :
    ∀ k v, (t.insert r) k = some v →
      v.number = k ∧ ∀ x ∈ v.records, x.vehicle_number = k := by
  intro k v hk
  unfold Trains.insert at hk
  cases ht : t r.vehicle_number with
  | some v0 =>
    simp only [ht] at hk
    by_cases hkr : k = r.vehicle_number
    · rw [if_pos hkr] at hk
      obtain ⟨hnum, hrecs⟩ := hinv r.vehicle_number v0 ht
      cases hk
      subst hkr
      refine ⟨hnum, ?_⟩
      intro x hx
      rcases List.mem_append.mp hx with hold | hnew
      · exact hrecs x hold
      · simp only [List.mem_singleton] at hnew
        subst hnew
        rfl
    · rw [if_neg hkr] at hk
      exact hinv k v hk
  | none =>
    simp only [ht] at hk
    by_cases hkr : k = r.vehicle_number
    · rw [if_pos hkr] at hk
      cases hk
      subst hkr
      refine ⟨rfl, ?_⟩
      intro x hx
      simp only [Vehicle.from_record, List.mem_singleton] at hx
      subst hx
      rfl
    · rw [if_neg hkr] at hk
      exact hinv k v hk

/-- Folding `Trains::insert` preserves the filing invariant. -/
theorem foldl_preserves_filed (rs : List Record) :
    ∀ (t : Trains),
      (∀ k v, t k = some v → v.number = k ∧ ∀ r ∈ v.records, r.vehicle_number = k) →
      ∀ k v, (rs.foldl Trains.insert t) k = some v →
        v.number = k ∧ ∀ r ∈ v.records, r.vehicle_number = k := by
  induction rs with
  | nil => intro t ht; simpa using ht
  | cons r rest ih =>
    intro t ht
    simp only [List.foldl_cons]
    exact ih (t.insert r) (insert_preserves_filed t ht r)

/-- C10: after any sequence of inserts from the empty store, every stored
vehicle's number equals its key and every record in its timeline bears that
key as its `vehicle_number`. -/
theorem records_filed_under_own_vehicle_number
    (rs : List Record) (k : String) (v : Vehicle)
    (h : (rs.foldl Trains.insert Trains.empty) k = some v) :
    v.number = k ∧ ∀ r ∈ v.records, r.vehicle_number = k := by
  refine foldl_preserves_filed rs Trains.empty ?_ k v h
  intro k' v' hc
  simp [Trains.empty] at hc

/-- C10, witness: one insert of `demoRecord1` files it under `"v1"`. -/
theorem records_filed_under_own_vehicle_number_witness :
    (Vehicle.mk "v1" [demoRecord1]).number = "v1" :=
  (records_filed_under_own_vehicle_number [demoRecord1] "v1"
    ⟨"v1", [demoRecord1]⟩ rfl).1

/-- C7 amended: a trajectory feature whose property map lacks `train_id` and
whose properties extracted before it (in struct-literal order: delay, line,
operator_provides_realtime_journey, original_line, original_rake, rake,
raw_coordinates, ride_state, state, tenant) all decode successfully fails the
statistics projection with `MissingProperty("train_id")`; the replay
projection into `Record` is decoded independently from the same envelope and
can still succeed, since `Record` extraction never consults `train_id`. -/
theorem missing_train_id_stats_vs_replay :
    (∀ (geo : Option Geometry) (props : List (String × Json)),
      jlookup props "train_id" = none →
      (∃ a, extractOptString props "delay" = .ok a) →
      (∃ b, lineField props = .ok b) →
      (∃ c, extractString props "operator_provides_realtime_journey" = .ok c) →
      (∃ d, extractOptString props "original_line" = .ok d) →
      (∃ e, extractOptString props "original_rake" = .ok e) →
      (∃ f, extractOptString props "rake" = .ok f) →
      (∃ g, rawCoordField props = .ok g) →
      (∃ i, extractOptString props "ride_state" = .ok i) →
      (∃ j, extractOptString props "state" = .ok j) →
      (∃ s, extractString props "tenant" = .ok s) →
      Train.tryFrom (.trajectorySchematic (.feature ⟨geo, some props⟩)) =
        .err (.MissingProperty "train_id")) ∧
    Train.tryFrom (.trajectorySchematic (.feature ⟨none, some c7props⟩)) =
      .err (.MissingProperty "train_id") ∧
    (∃ rec, Record.tryFrom
      ⟨.trajectorySchematic (.feature ⟨none, some c7props⟩), 1, none⟩ = .ok rec) := by
  refine ⟨?_, rfl, ⟨_, rfl⟩⟩
  intro geo props htid hdelay hline hop holine horake hrake hraw hride hstate htenant
  obtain ⟨a, ha⟩ := hdelay
  obtain ⟨b, hb⟩ := hline
  obtain ⟨c, hc⟩ := hop
  obtain ⟨d, hd⟩ := holine
  obtain ⟨e, he⟩ := horake
  obtain ⟨f, hf⟩ := hrake
  obtain ⟨g, hg⟩ := hraw
  obtain ⟨i, hi⟩ := hride
  obtain ⟨j, hj⟩ := hstate
  obtain ⟨s, hs⟩ := htenant
  have htid' : extractString props "train_id" = .err (.MissingProperty "train_id") := by
    simp [extractString, htid]
  simp [Train.tryFrom, Bind.bind, RRes.bind, ha, hb, hc, hd, he, hf, hg, hi, hj, hs, htid']

/-- C7 amended, witness at the concrete property map `c7props` with the
`train_id` entry still absent. -/
theorem missing_train_id_stats_vs_replay_witness :
    Train.tryFrom (.trajectorySchematic (.feature ⟨none, some c7props⟩)) =
      .err (.MissingProperty "train_id") :=
  missing_train_id_stats_vs_replay.1 none c7props rfl
    ⟨none, rfl⟩ ⟨_, rfl⟩ ⟨"op", rfl⟩ ⟨none, rfl⟩ ⟨none, rfl⟩ ⟨none, rfl⟩
    ⟨_, rfl⟩ ⟨none, rfl⟩ ⟨some "DRIVING", rfl⟩ ⟨"sbm", rfl⟩

/-! ### Round-trip lemmas for the envelope codec -/

theorem decodeGeometry_rt (g : Geometry) :
    decodeGeometry (encodeGeometry g) = .ok g := by
  obtain ⟨gt, c⟩ := g
  cases gt <;> rfl

theorem decodeFeature_rt (f : Feature) :
    decodeFeature (encodeFeature f) = .ok f := by
  obtain ⟨geo, props⟩ := f
  cases geo with
  | none => cases props <;> rfl
  | some g =>
    obtain ⟨gt, c⟩ := g
    cases gt <;> cases props <;> rfl

theorem decodeFeatures_rt (fs : List Feature) :
    decodeFeatures (fs.map encodeFeature) = .ok fs := by
  induction fs with
  | nil => rfl
  | cons f rest ih =>
    simp [decodeFeatures, decodeFeature_rt, ih, Bind.bind, Except.bind, pure, Except.pure]

theorem decodeGeoJson_rt (g : GeoJson) :
    decodeGeoJson (encodeGeoJson g) = .ok g := by
  cases g with
  | geometry geo =>
    obtain ⟨gt, c⟩ := geo
    cases gt <;> rfl
  | feature f =>
    have h1 : decodeGeoJson (encodeGeoJson (.feature f)) =
        (decodeFeature (encodeFeature f)).map .feature := rfl
    rw [h1, decodeFeature_rt]
    rfl
  | featureCollection fs =>
    have h1 : decodeGeoJson (encodeGeoJson (.featureCollection fs)) =
        (decodeFeatures (fs.map encodeFeature)).map .featureCollection := rfl
    rw [h1, decodeFeatures_rt]
    rfl

theorem decodeWebSocket_rt (w : WebSocket) :
    decodeWebSocket (encodeWebSocket w) = .ok w := by
  cases w <;> rfl

theorem decodeHealthCheck_rt (h : HealthCheck) :
    decodeHealthCheck (encodeHealthCheck h) = .ok h := by
  obtain ⟨s, b, t⟩ := h
  cases t <;> rfl

theorem decodeOptExtraGeoms_rt (e : Option ExtraGeoms) :
    decodeOptExtraGeoms
      (match e with | none => .null | some x => encodeExtraGeoms x) = .ok e := by
  cases e with
  | none => rfl
  | some x =>
    obtain ⟨t, p⟩ := x
    obtain ⟨r⟩ := p
    rfl

theorem decodeStrings_rt (xs : List String) :
    decodeStrings (xs.map .str) = .ok xs := by
  induction xs with
  | nil => rfl
  | cons s rest ih => simp [decodeStrings, ih, Except.map]

theorem decodeNewsTickerMessage_rt (m : NewsTickerMessage) :
    decodeNewsTickerMessage (encodeNewsTickerMessage m) = .ok m := by
  obtain ⟨t, ls, c, u⟩ := m
  have h1 : decodeNewsTickerMessage (encodeNewsTickerMessage ⟨t, ls, c, u⟩) =
      (decodeStrings (ls.map .str)).bind
        (fun lns => .ok ⟨t, lns, c, u⟩) := rfl
  rw [h1, decodeStrings_rt]
  rfl

theorem decodeNewsTickerMessages_rt (ms : List NewsTickerMessage) :
    decodeNewsTickerMessages (ms.map encodeNewsTickerMessage) = .ok ms := by
  induction ms with
  | nil => rfl
  | cons m rest ih =>
    simp [decodeNewsTickerMessages, decodeNewsTickerMessage_rt, ih, Bind.bind,
      Except.bind, pure, Except.pure]

theorem decodeSbmNewsTicker_rt (n : SbmNewsTicker) :
    decodeSbmNewsTicker (encodeSbmNewsTicker n) = .ok n := by
  obtain ⟨ip, ms⟩ := n
  cases ip with
  | none =>
    have h1 : decodeSbmNewsTicker (encodeSbmNewsTicker ⟨none, ms⟩) =
        (decodeNewsTickerMessages (ms.map encodeNewsTickerMessage)).bind
          (fun msgs => .ok ⟨none, msgs⟩) := rfl
    rw [h1, decodeNewsTickerMessages_rt]
    rfl
  | some b =>
    have h1 : decodeSbmNewsTicker (encodeSbmNewsTicker ⟨some b, ms⟩) =
        (decodeNewsTickerMessages (ms.map encodeNewsTickerMessage)).bind
          (fun msgs => .ok ⟨some b, msgs⟩) := rfl
    rw [h1, decodeNewsTickerMessages_rt]
    rfl

/-- Adjacently-tagged decode recovers any (known-discriminator) content value
from its tag and encoded payload, whatever other envelope fields follow. -/
theorem decodeContent_rt (c : Content) (rest : List (String × Json)) :
    decodeContent (.obj (("source", .str c.tag) ::
      ("content", encodeContentPayload c) :: rest)) = .ok c := by
  cases c with
  | trajectorySchematic g =>
    show (decodeGeoJson (encodeGeoJson g)).map Content.trajectorySchematic =
      Except.ok (Content.trajectorySchematic g)
    rw [decodeGeoJson_rt]
    rfl
  | deletedVehiclesSchematic s => cases s <;> rfl
  | stationSchematic g =>
    show (decodeGeoJson (encodeGeoJson g)).map Content.stationSchematic =
      Except.ok (Content.stationSchematic g)
    rw [decodeGeoJson_rt]
    rfl
  | websocket w => cases w <;> rfl
  | extraGeoms e =>
    show (decodeOptExtraGeoms
        (match e with | none => Json.null | some x => encodeExtraGeoms x)).map
        Content.extraGeoms = Except.ok (Content.extraGeoms e)
    rw [decodeOptExtraGeoms_rt]
    rfl
  | healthcheck h =>
    obtain ⟨s, b, t⟩ := h
    cases t <;> rfl
  | sbmNewsTicker n =>
    show (decodeSbmNewsTicker (encodeSbmNewsTicker n)).map Content.sbmNewsTicker =
      Except.ok (Content.sbmNewsTicker n)
    rw [decodeSbmNewsTicker_rt]
    rfl
  | trajectory g =>
    show (decodeGeoJson (encodeGeoJson g)).map Content.trajectory =
      Except.ok (Content.trajectory g)
    rw [decodeGeoJson_rt]
    rfl
  | deletedVehicles s => cases s <;> rfl
  | station g =>
    show (decodeGeoJson (encodeGeoJson g)).map Content.station =
      Except.ok (Content.station g)
    rw [decodeGeoJson_rt]
    rfl

/-- C9: serializing an envelope (whose discriminator is, by construction of
the `Content` type, one of the known discriminators) and deserializing the
result returns the original structured content, timestamp and client
reference. -/
theorem envelope_roundtrip (m : ResponseMessage) :
    decodeResponseMessage (encodeResponseMessage m) = .ok m := by
  obtain ⟨c, ts, cref⟩ := m
  cases cref with
  | none =>
    have h1 : decodeResponseMessage (encodeResponseMessage ⟨c, ts, none⟩) =
        (decodeContent (.obj (("source", .str c.tag) ::
          ("content", encodeContentPayload c) ::
          [("timestamp", .num ts), ("client_reference", .null)]))).bind
          (fun content => .ok ⟨content, ts, none⟩) := rfl
    rw [h1, decodeContent_rt]
    rfl
  | some n =>
    have hden : ((n.val : ℚ)).den = 1 := Rat.den_intCast n.val
    have hnum : ((n.val : ℚ)).num = n.val := Rat.num_intCast n.val
    have hcond : ((n.val : ℚ)).den = 1 ∧
        -128 ≤ ((n.val : ℚ)).num ∧ ((n.val : ℚ)).num < 128 :=
      ⟨hden, by rw [hnum]; exact n.2.1, by rw [hnum]; exact n.2.2⟩
    have h1 : decodeResponseMessage (encodeResponseMessage ⟨c, ts, some n⟩) =
        (if h : ((n.val : ℚ)).den = 1 ∧
            -128 ≤ ((n.val : ℚ)).num ∧ ((n.val : ℚ)).num < 128 then
          (decodeContent (.obj (("source", .str c.tag) ::
            ("content", encodeContentPayload c) ::
            [("timestamp", .num ts), ("client_reference", .num (n.val : ℚ))]))).bind
            (fun content => .ok ⟨content, ts, some ⟨((n.val : ℚ)).num, h.2⟩⟩)
        else .error .shape) := rfl
    rw [h1, dif_pos hcond, decodeContent_rt]
    have : (⟨((n.val : ℚ)).num, hcond.2⟩ : I8) = n := Subtype.ext hnum
    rw [this]
    rfl

/-- C8: a malformed line between two valid trajectory lines does not abort
the offline scan — the scan completes (no panic, no early exit), the
malformed line is reported exactly once, and both valid lines are still
decoded, counted into all aggregators, and inserted into the vehicle
history. -/
theorem malformed_line_does_not_abort_scan
    (j1 j2 : Json) (m1 m2 : ResponseMessage) (g1 g2 : GeoJson)
    (t1 t2 : Train) (r1 r2 : Record)
    (hd1 : decodeResponseMessage j1 = .ok m1)
    (hd2 : decodeResponseMessage j2 = .ok m2)
    (hc1 : m1.content = .trajectorySchematic g1)
    (hc2 : m2.content = .trajectorySchematic g2)
    (ht1 : Train.tryFrom (.trajectorySchematic g1) = .ok t1)
    (ht2 : Train.tryFrom (.trajectorySchematic g2) = .ok t2)
    (hr1 : Record.tryFrom m1 = .ok r1)
    (hr2 : Record.tryFrom m2 = .ok r2) :
    scan [.json j1, .malformed, .json j2] = .ok
      { trains := 2,
        delays := (Counter.new.insert t1.delay).insert t2.delay,
        states := (Counter.new.insert t1.state).insert t2.state,
        ride_states := (Counter.new.insert t1.ride_state).insert t2.ride_state,
        original_lines := (Counter.new.insert t1.original_line).insert t2.original_line,
        lines := (Counter.new.insert t1.line).insert t2.line,
        persistent_trains := (Trains.empty.insert r1).insert r2,
        parse_reports := 1,
        train_reports := 0 } := by
  simp only [scan, scanFrom, processLine, ScanState.init,
    hd1, hd2, hc1, hc2, ht1, ht2, hr1, hr2]

/-- C8, witness: a valid line, a malformed line, and the same valid line
again — the scan completes with both valid lines counted and inserted and
one parse report. -/
theorem malformed_line_does_not_abort_scan_witness :
    scan [.json c8json, .malformed, .json c8json] = .ok
      { trains := 2,
        delays := (Counter.new.insert c8train.delay).insert c8train.delay,
        states := (Counter.new.insert c8train.state).insert c8train.state,
        ride_states := (Counter.new.insert c8train.ride_state).insert c8train.ride_state,
        original_lines :=
          (Counter.new.insert c8train.original_line).insert c8train.original_line,
        lines := (Counter.new.insert c8train.line).insert c8train.line,
        persistent_trains := (Trains.empty.insert c8record).insert c8record,
        parse_reports := 1,
        train_reports := 0 } :=
  malformed_line_does_not_abort_scan c8json c8json c8msg c8msg
    (.feature ⟨none, some c8props⟩) (.feature ⟨none, some c8props⟩)
    c8train c8train c8record c8record rfl rfl rfl rfl rfl rfl rfl rfl

end SBahn
